import Mathlib

/-!
Verification development for the cronator execution-orchestration core
(`app/services/executor.py`, `app/services/environment.py`,
`app/services/scheduler.py`), shallowly embedded in Lean.

Conventions of the embedding:
* `asyncio` state (running-script set, process table) becomes explicit
  record-typed state threaded through the functions.
* The database is a `List Execution`; a commit is a functional update.
* Timestamps are abstract clock values (`Nat`, seconds).
* External subprocesses (the `uv` tool, the spawned interpreter) are
  oracles passed in as parameters describing their observable behaviour
  (exit code, output text, timing).
* Side-effect-only statements of the Python source (logging, SSE queue
  puts) carry no data the theorems mention and are dropped.
-/

namespace Cronator

/-- Python `str.lower()` (ASCII-adequate for the pattern lists used here). -/
def pyLower (s : String) : String := String.mk (s.data.map Char.toLower)

/-- Python `str.strip()`: drop leading and trailing whitespace. -/
def pyStrip (s : String) : String :=
  String.mk (((s.data.dropWhile Char.isWhitespace).reverse.dropWhile
    Char.isWhitespace).reverse)

/-- Python `s.startswith(pre)`. -/
def pyStartsWith (pre s : String) : Bool := pre.data.isPrefixOf s.data

/-- Worker for `pySplitWs`: current run of non-whitespace characters is
accumulated reversed in `acc`. -/
def splitWsAux : List Char → List Char → List String
  | [], acc => if acc.isEmpty then [] else [String.mk acc.reverse]
  | c :: t, acc =>
    if c.isWhitespace then
      if acc.isEmpty then splitWsAux t []
      else String.mk acc.reverse :: splitWsAux t []
    else splitWsAux t (c :: acc)

/-- Worker for `pySplitOnNl`. -/
def splitNlAux : List Char → List Char → List String
  | [], acc => [String.mk acc.reverse]
  | c :: t, acc =>
    if c = '\n' then String.mk acc.reverse :: splitNlAux t []
    else splitNlAux t (c :: acc)

/-- Python `s.split("\n")`. -/
def pySplitOnNl (s : String) : List String := splitNlAux s.data []

/-- Python `s.split(c)[0]`: the text before the first occurrence of `c`. -/
def pyBefore (c : Char) (s : String) : String :=
  String.mk (s.data.takeWhile (fun x => x ≠ c))

/-- Python `int(...)` on a nonempty digit string. -/
def digitsToNat (ds : List Char) : Nat :=
  ds.foldl (fun n c => n * 10 + (c.toNat - 48)) 0

/-- Substring search on character lists. -/
def listIsSubstr : List Char → List Char → Bool
  | needle, [] => needle.isEmpty
  | needle, c :: t => needle.isPrefixOf (c :: t) || listIsSubstr needle t

/-- Python `needle in hay` substring test. -/
def substrOf (needle hay : String) : Bool := listIsSubstr needle.toList hay.toList

/-- Python `s.split()` with no argument: split on whitespace runs, dropping empties. -/
def pySplitWs (s : String) : List String := splitWsAux s.data []

/-- `app/models/execution.py` `ExecutionStatus`. -/
inductive ExecutionStatus
  | pending
  | running
  | success
  | failed
  | timeout
  | cancelled
deriving DecidableEq, Repr

/-- `app/models/execution.py` `Execution` (the columns the executor touches). -/
structure Execution where
  id : Nat
  script_id : Nat
  status : ExecutionStatus
  triggered_by : String
  is_test : Bool
  started_at : Nat
  finished_at : Option Nat
  duration_ms : Option Nat
  exit_code : Option Int
  stdout : String
  stderr : String
  error_message : Option String
  artifacts_count : Nat
  artifacts_size_bytes : Nat
deriving DecidableEq, Repr

/-- One entry of `artifacts_metadata` collected by `read_stream` in
`ExecutorService._run_script`. -/
structure ArtifactInfo where
  filename : String
  size_bytes : Nat
  original_filename : String
deriving DecidableEq, Repr

/-- `app/models/artifact.py` `Artifact` (the columns `_finish_execution` writes). -/
structure Artifact where
  execution_id : Nat
  filename : String
  original_filename : String
  size_bytes : Nat
  created_at : Nat
deriving DecidableEq, Repr

/-- The artifact record `_finish_execution` builds from one metadata entry. -/
def mkArtifact (execution_id : Nat) (now : Nat) (a : ArtifactInfo) : Artifact :=
  { execution_id := execution_id
    filename := a.filename
    original_filename := a.original_filename
    size_bytes := a.size_bytes
    created_at := now }

/-- `ExecutorService._finish_execution`.  `disk` is the set of file names
present in this execution's artifacts directory (the `artifact_path.exists()`
oracle).  Returns the updated execution row together with the artifact rows
added to the database.

The first branch is the cancellation guard: a row already persisted as
`cancelled` keeps that status and only missing fields are backfilled. -/
def finish_execution (now : Nat) (disk : List String) (e : Execution)
    (status : ExecutionStatus) (exit_code : Option Int) (stdout stderr : String)
    (error_message : Option String) (start_time : Option Nat)
    (artifacts_metadata : List ArtifactInfo) : Execution × List Artifact :=
  if e.status = ExecutionStatus.cancelled then
    ({ e with
        exit_code := if e.exit_code = none ∧ exit_code ≠ none then exit_code else e.exit_code
        stdout := if e.stdout = "" ∧ stdout ≠ "" then stdout else e.stdout
        stderr := if e.stderr = "" ∧ stderr ≠ "" then stderr else e.stderr
        finished_at := if e.finished_at = none then some now else e.finished_at }, [])
  else
    let end_time := now
    let e1 : Execution :=
      { e with
          status := status
          finished_at := some end_time
          exit_code := exit_code
          stdout := stdout
          stderr := stderr
          error_message := error_message
          duration_ms :=
            match start_time with
            | some st => some ((end_time - st) * 1000)
            | none => e.duration_ms }
    if artifacts_metadata = [] then (e1, [])
    else
      let present := artifacts_metadata.filter (fun a => decide (a.filename ∈ disk))
      let records := present.map (mkArtifact e.id now)
      ({ e1 with
          artifacts_count := present.length
          artifacts_size_bytes := (present.map (fun a => a.size_bytes)).sum }, records)

/-- `ExecutorService.cleanup_stale_executions`: every row persisted as
`running` is finalized as `failed` with the restart message; other rows are
untouched. -/
def cleanup_stale_executions (now : Nat) (execs : List Execution) : List Execution :=
  execs.map fun e =>
    if e.status = ExecutionStatus.running then
      { e with
          status := ExecutionStatus.failed
          finished_at := some now
          error_message := some "Execution interrupted by service restart" }
    else e

/-- In-memory executor state: `_running_scripts`, `running_processes` (by
execution id), and the database's execution rows. -/
structure ExecutorState where
  running_scripts : List Nat
  running_processes : List Nat
  executions : List Execution
  next_execution_id : Nat
deriving DecidableEq, Repr

/-- `ExecutorService.is_script_running`. -/
def is_script_running (st : ExecutorState) (script_id : Nat) : Bool :=
  script_id ∈ st.running_scripts

/-- Outcome of `ExecutorService.execute_script` (the two `ValueError`s become
explicit error values). -/
inductive ExecuteResult
  | ok (execution_id : Nat)
  | alreadyRunning (script_id : Nat)
  | scriptNotFound (script_id : Nat)
deriving DecidableEq, Repr

/-- `ExecutorService.execute_script` up to the hand-off to the background
task.  The admission check and the insertion into `_running_scripts` happen
under the per-script lock, which the sequential state-passing renders as one
atomic step.  `script_exists` is the `scalar_one_or_none` lookup outcome.

Note: on the `script_exists = false` path the function raises after the
script id was already added to `_running_scripts`, and no code path removes
it again (the source has no `try/finally` around this section). -/
def execute_script (st : ExecutorState) (script_id : Nat) (script_exists : Bool)
    (triggered_by : String) (is_test : Bool) (now : Nat) : ExecuteResult × ExecutorState :=
  if script_id ∈ st.running_scripts then
    (ExecuteResult.alreadyRunning script_id, st)
  else
    let st1 := { st with running_scripts := script_id :: st.running_scripts }
    if script_exists then
      let e : Execution :=
        { id := st1.next_execution_id
          script_id := script_id
          status := ExecutionStatus.running
          triggered_by := triggered_by
          is_test := is_test
          started_at := now
          finished_at := none
          duration_ms := none
          exit_code := none
          stdout := ""
          stderr := ""
          error_message := none
          artifacts_count := 0
          artifacts_size_bytes := 0 }
      (ExecuteResult.ok e.id,
        { st1 with
            executions := st1.executions ++ [e]
            next_execution_id := st1.next_execution_id + 1 })
    else
      (ExecuteResult.scriptNotFound script_id, st1)

/-- First execution row with the given id (`scalar_one_or_none`). -/
def findExecution (execs : List Execution) (execution_id : Nat) : Option Execution :=
  execs.find? (fun e => e.id = execution_id)

/-- Replace the row with the given id (a committed `UPDATE`). -/
def updateExecution (execs : List Execution) (execution_id : Nat)
    (f : Execution → Execution) : List Execution :=
  execs.map fun e => if e.id = execution_id then f e else e

/-- `ExecutorService.cancel_execution`.  The subprocess `kill()` has no
observable effect on the modelled state beyond the record update; the SSE
`done` put is a side effect the return value does not depend on. -/
def cancel_execution (st : ExecutorState) (execution_id : Nat) (now : Nat) :
    Bool × ExecutorState :=
  let process_present := execution_id ∈ st.running_processes
  match findExecution st.executions execution_id with
  | none =>
      (false, { st with running_processes := st.running_processes.erase execution_id })
  | some e =>
      if e.status ≠ ExecutionStatus.running then
        (false,
          { st with
              running_processes := st.running_processes.erase execution_id
              running_scripts :=
                if e.script_id ≠ 0 then st.running_scripts.erase e.script_id
                else st.running_scripts })
      else if process_present then
        let execs1 :=
          if e.status = ExecutionStatus.running then
            updateExecution st.executions execution_id fun x =>
              { x with
                  status := ExecutionStatus.cancelled
                  finished_at := some now
                  error_message := some "Cancelled by user" }
          else st.executions
        (true,
          { st with
              executions := execs1
              running_processes := st.running_processes.erase execution_id
              running_scripts :=
                if e.script_id ≠ 0 then st.running_scripts.erase e.script_id
                else st.running_scripts })
      else
        (false,
          { st with
              running_scripts :=
                if e.script_id ≠ 0 then st.running_scripts.erase e.script_id
                else st.running_scripts })

/-- Observable behaviour of one spawned interpreter process: the instant
(seconds after spawn) at which both stdout and stderr reach EOF, the instant
it exits, and its exit code.  A pipe reaches EOF no earlier than when its
writer closes it, which for an ordinary script is process exit, so
`streams_close_at = exits_at` for a script that holds its streams open. -/
structure ProcBehavior where
  streams_close_at : Nat
  exits_at : Nat
  exit_code : Int
deriving DecidableEq, Repr

/-- Truncation of captured output in `_run_script`. -/
def truncateLog (max_log_size : Nat) (s : String) : String :=
  if s.length > max_log_size then s.take max_log_size ++ "\n... (truncated)" else s

/-- The tail of `ExecutorService._run_script` after the process is spawned:
`await asyncio.gather(read_stream(stdout), read_stream(stderr))` completes
only when both streams hit EOF — no timeout applies to this wait — and only
then does `asyncio.wait_for(process.wait(), timeout=script.timeout)` run, so
the timeout bounds solely the residual wait `exits_at - streams_close_at`.
Returns the finalized row, the artifact rows, and whether the process was
killed by the timeout handler. -/
def run_script_wait (max_log_size : Nat) (script_timeout : Nat) (now : Nat)
    (disk : List String) (p : ProcBehavior) (e : Execution)
    (stdout_lines stderr_lines : List String)
    (artifacts_metadata : List ArtifactInfo) (start_time : Nat) :
    Execution × List Artifact × Bool :=
  let residual_wait := p.exits_at - p.streams_close_at
  if residual_wait ≤ script_timeout then
    let stdout_text := truncateLog max_log_size (String.join stdout_lines)
    let stderr_text := truncateLog max_log_size (String.join stderr_lines)
    let status :=
      if e.status = ExecutionStatus.cancelled then ExecutionStatus.cancelled
      else if p.exit_code = 0 then ExecutionStatus.success
      else ExecutionStatus.failed
    let (e1, arts) := finish_execution now disk e status (some p.exit_code)
      stdout_text stderr_text none (some start_time) artifacts_metadata
    (e1, arts, false)
  else
    let (e1, arts) := finish_execution now disk e ExecutionStatus.timeout none "" ""
      (some ("Script timed out after " ++ toString script_timeout ++ " seconds"))
      (some start_time) []
    (e1, arts, true)

/-- Attempt the regex `ARTIFACT_SAVED:([^:]+):(\d+):([^\"}\n]+)` with the
match anchored right after one occurrence of the literal; `rest` is the text
following `ARTIFACT_SAVED:`.  Each group is a maximal nonempty run (the
character classes exclude the mandatory following `:` so greedy matching is
deterministic). -/
def matchMarkerGroups (rest : List Char) : Option ArtifactInfo :=
  let g1 := rest.takeWhile (fun c => c ≠ ':')
  if g1.isEmpty then none
  else
    match rest.dropWhile (fun c => c ≠ ':') with
    | ':' :: rest2 =>
      let g2 := rest2.takeWhile Char.isDigit
      if g2.isEmpty then none
      else
        match rest2.dropWhile Char.isDigit with
        | ':' :: rest3 =>
          let g3 := rest3.takeWhile (fun c => c ≠ '"' ∧ c ≠ '\x7d' ∧ c ≠ '\n')
          if g3.isEmpty then none
          else
            some
              { filename := pyStrip (String.mk g1)
                size_bytes := digitsToNat g2
                original_filename := pyStrip (String.mk g3) }
        | _ => none
    | _ => none

/-- `re.search` of the artifact pattern: try every occurrence of the literal
`ARTIFACT_SAVED:` left to right until the groups match. -/
def searchMarker : List Char → Option ArtifactInfo
  | [] => none
  | c :: t =>
    if "ARTIFACT_SAVED:".toList.isPrefixOf (c :: t) then
      match matchMarkerGroups ((c :: t).drop 15) with
      | some a => some a
      | none => searchMarker t
    else searchMarker t

/-- The artifact-marker branch of `read_stream` in `_run_script`, applied to
one decoded stdout line.  `jsonMessage` is the oracle for
`json.loads(message).get("message")` when the stripped line is a
structured-log envelope (starts with a brace); `none` stands for a decode
failure or a missing key, in which case the original text is kept. -/
def parseArtifactLine (jsonMessage : String → Option String) (decoded : String) :
    Option ArtifactInfo :=
  if substrOf "ARTIFACT_SAVED:" decoded then
    let message := pyStrip decoded
    let message :=
      if pyStartsWith "\x7b" message then (jsonMessage message).getD message else message
    searchMarker message.toList
  else none

/-- All artifact metadata collected by `read_stream` over the stdout lines,
in order. -/
def collectArtifactsMetadata (jsonMessage : String → Option String)
    (stdout_lines : List String) : List ArtifactInfo :=
  stdout_lines.filterMap (parseArtifactLine jsonMessage)

/-- `app/models/script.py` `Script` (the columns the scheduler reads). -/
structure Script where
  id : Nat
  name : String
  enabled : Bool
  cron_expression : String
  misfire_grace_time : Nat
deriving DecidableEq, Repr

/-- One APScheduler job as registered by `SchedulerService.add_job`. -/
structure Job (T : Type) where
  id : String
  name : String
  script_id : Nat
  trigger : T
  misfire_grace_time : Nat
deriving DecidableEq, Repr

/-- `SchedulerService._parse_cron`: strip, split on whitespace, require
exactly five fields, then hand them to the `CronTrigger` constructor
(`mkTrigger`, the APScheduler oracle; `none` models the constructor
raising, which `_parse_cron` catches and turns into `None`). -/
def parse_cron {T : Type} (mkTrigger : String → String → String → String → String → Option T)
    (cron_expression : String) : Option T :=
  match pySplitWs (pyStrip cron_expression) with
  | [minute, hour, day, month, day_of_week] => mkTrigger minute hour day month day_of_week
  | _ => none

/-- `SchedulerService.add_job` acting on the in-memory job table: reject
disabled scripts, remove any existing job with the same id, reject a cron
expression `_parse_cron` cannot turn into a trigger, otherwise append the
job carrying the script's misfire grace time. -/
def add_job {T : Type} (mkTrigger : String → String → String → String → String → Option T)
    (jobs : List (Job T)) (script : Script) : Bool × List (Job T) :=
  if ¬script.enabled then (false, jobs)
  else
    let job_id := "script_" ++ toString script.id
    let jobs1 := jobs.filter (fun j => j.id ≠ job_id)
    match parse_cron mkTrigger script.cron_expression with
    | none => (false, jobs1)
    | some trigger =>
        (true, jobs1 ++
          [{ id := job_id
             name := script.name
             script_id := script.id
             trigger := trigger
             misfire_grace_time := script.misfire_grace_time }])

/-- `app/services/environment.py` `RETRYABLE_NETWORK_ERRORS`. -/
def RETRYABLE_NETWORK_ERRORS : List String :=
  ["failed to download",
   "connection timed out",
   "connection refused",
   "temporary failure",
   "network is unreachable",
   "read timed out",
   "ssl error",
   "certificate verify failed",
   "connect timeout",
   "timeout was reached"]

/-- `app/services/environment.py` `NON_RETRYABLE_ERRORS`. -/
def NON_RETRYABLE_ERRORS : List String :=
  ["No solution found",
   "not found in the package registry",
   "invalid package name",
   "does not exist",
   "No versions"]

/-- Dependency-list parsing shared by `validate_dependencies`,
`install_dependencies` and `_install_dependencies_streaming`: strip, split
on newlines, strip each line, drop blanks and `#` comments. -/
def parsePackages (dependencies : String) : List String :=
  ((pySplitOnNl (pyStrip dependencies)).map pyStrip).filter
    (fun pkg => pkg ≠ "" ∧ ¬pyStartsWith "#" pkg)

/-- Python falsy test used on `str` values (`a or b`). -/
def strOr (a b : String) : String := if a = "" then b else a

/-- `uv pip compile` / `uv pip install` run outcome: either the process
completed with an exit code and decoded stdout/stderr, or the bounded wait
timed out (`asyncio.wait_for` raising `TimeoutError`). -/
inductive UvRun
  | completes (returncode : Int) (stdout stderr : String)
  | timesOut
deriving Repr

/-- The per-package format loop of `_validate_dependencies_impl`, returning
`(invalid_packages, valid_packages)` in source order. -/
def checkPackageFormats : List String → List String × List String
  | [] => ([], [])
  | pkg :: rest =>
    let (inv, val) := checkPackageFormats rest
    if [';', '&', '|', Char.ofNat 96, '$'].any (fun c => pkg.data.contains c) then
      ((pkg ++ " (contains shell characters)") :: inv, val)
    else if pkg = "" ∨ pkg.data.all Char.isWhitespace then
      ((pkg ++ " (empty)") :: inv, val)
    else
      let pkg_name :=
        pyBefore '!' (pyBefore '<' (pyBefore '>' (pyBefore '=' (pyBefore '[' pkg))))
      if pkg_name = "" ∨ ¬(pkg_name.front.isAlphanum) then
        ((pkg ++ " (invalid package name)") :: inv, val)
      else (inv, pkg :: val)

/-- Error-phrase classification in `_validate_dependencies_impl` after the
`uv pip compile` dry run. -/
def resolutionErrorIndicators : List String :=
  ["No solution found",
   "not found in the package registry",
   "No versions",
   "error:",
   "failed to download",
   "Could not find",
   "does not exist"]

/-- `EnvironmentService._validate_dependencies_impl`.  `uvCompile` is the
external `uv pip compile` oracle, invoked on the written package list. -/
def validate_dependencies_impl (uvCompile : List String → UvRun)
    (dependencies : String) : Bool × String × List String :=
  let packages := parsePackages dependencies
  if packages = [] then (true, "", [])
  else
    let (invalid_packages, valid_packages) := checkPackageFormats packages
    if invalid_packages ≠ [] then
      (false,
        "Invalid package format:\n" ++
          String.intercalate "\n" (invalid_packages.map (fun p => "• " ++ p)),
        valid_packages)
    else
      match uvCompile valid_packages with
      | UvRun.timesOut =>
          (false, "Validation timed out (60s). Try fewer packages or check your network.", [])
      | UvRun.completes returncode stdout stderr =>
          let stderr_text := stderr
          let stdout_text := stdout
          if resolutionErrorIndicators.any (fun ind =>
              substrOf (pyLower ind) (pyLower stderr_text) ||
              substrOf (pyLower ind) (pyLower stdout_text)) then
            (false, "Cannot resolve dependencies:\n" ++ strOr stderr_text stdout_text,
              valid_packages)
          else if returncode ≠ 0 then
            (false, "Resolution error:\n" ++ strOr (strOr stderr_text stdout_text) "Unknown error",
              valid_packages)
          else
            (true, "All " ++ toString valid_packages.length ++ " packages are valid and resolvable",
              valid_packages)

/-- `EnvironmentService.validate_dependencies`: the empty/whitespace-only
fast path, then the implementation under the global validation lock. -/
def validate_dependencies (uvCompile : List String → UvRun)
    (dependencies : String) : Bool × String × List String :=
  if pyStrip dependencies = "" then (true, "", [])
  else validate_dependencies_impl uvCompile dependencies

/-- Error-phrase classification in `install_dependencies` (its local
`error_indicators` list). -/
def installErrorIndicators : List String :=
  ["No solution found",
   "not found in the package registry",
   "Could not find",
   "No versions",
   "does not exist",
   "error:",
   "failed to download"]

/-- `EnvironmentService.install_dependencies`.  `env_exists` is the
`env_path.exists()` check; `uvInstall` is the external `uv pip install`
oracle returning `(returncode, stdout, stderr)`. -/
def install_dependencies (env_exists : Bool)
    (uvInstall : List String → Int × String × String)
    (dependencies : String) : Bool × String :=
  if pyStrip dependencies = "" then (true, "No dependencies to install")
  else if ¬env_exists then (false, "Environment does not exist")
  else
    let packages := parsePackages dependencies
    if packages = [] then (true, "No valid packages to install")
    else
      let (returncode, stdout, stderr) := uvInstall packages
      let output := stdout
      let errors := stderr
      let errors_found := installErrorIndicators.filter (fun ind =>
        substrOf (pyLower ind) (pyLower errors) || substrOf (pyLower ind) (pyLower output))
      if errors_found ≠ [] ∨ returncode ≠ 0 then
        (false, strOr (strOr errors output) "Installation failed")
      else (true, strOr output "Dependencies installed successfully")

/-- `EnvironmentService.retry_config` (the float values `2.0`, `30.0`,
`2.0` are exact binary values; they are modelled as rationals, on which the
arithmetic `min(base * factor ** (attempt - 1), max)` is exact as well). -/
structure RetryConfig where
  max_attempts : Nat
  base_delay : ℚ
  max_delay : ℚ
  backoff_factor : ℚ
deriving Repr

/-- The values set in `EnvironmentService.__init__`. -/
def retry_config : RetryConfig :=
  { max_attempts := 3, base_delay := 2, max_delay := 30, backoff_factor := 2 }

/-- `is_retryable` in `_install_dependencies_streaming`: some retryable
network-error phrase occurs in the (lowercased) joined output. -/
def isRetryableOutput (all_output : String) : Bool :=
  RETRYABLE_NETWORK_ERRORS.any (fun ind => substrOf ind all_output)

/-- `is_non_retryable` in `_install_dependencies_streaming`: some
non-retryable configuration-error phrase (lowercased) occurs in the joined
output. -/
def isNonRetryableOutput (all_output : String) : Bool :=
  NON_RETRYABLE_ERRORS.any (fun ind => substrOf (pyLower ind) all_output)

/-- One `uv pip install` attempt as observed by the retry loop: the process
exit code and the joined stdout+stderr line output. -/
structure AttemptOutcome where
  returncode : Int
  output : String

/-- Result of the retry loop: success flag, returned message, number of
attempts actually made, and the backoff delays slept between attempts. -/
structure InstallResult where
  ok : Bool
  msg : String
  attempts_made : Nat
  delays : List ℚ
deriving Repr

/-- The `for attempt in range(1, max_attempts + 1)` body of
`_install_dependencies_streaming`.  `outcomes a` is the external process
behaviour of the `a`-th attempt; `fuel` counts the loop iterations left
(initially `max_attempts`), so the `fuel = 0` case is the unreachable
fall-through `return False, last_error or "Installation failed"` after the
loop. -/
def installLoop (cfg : RetryConfig) (outcomes : Nat → AttemptOutcome) :
    Nat → Nat → List ℚ → String → InstallResult
  | 0, attempt, delays, last_error =>
      { ok := false
        msg := strOr last_error "Installation failed"
        attempts_made := attempt - 1
        delays := delays }
  | fuel + 1, attempt, delays, _prev_error =>
      let o := outcomes attempt
      if o.returncode = 0 then
        { ok := true, msg := "Dependencies installed", attempts_made := attempt, delays := delays }
      else
        let all_output := pyLower o.output
        let last_error := "pip install failed with code " ++ toString o.returncode
        if isNonRetryableOutput all_output then
          { ok := false, msg := last_error, attempts_made := attempt, delays := delays }
        else if isRetryableOutput all_output = false ∨ attempt = cfg.max_attempts then
          { ok := false, msg := last_error, attempts_made := attempt, delays := delays }
        else
          let delay := min (cfg.base_delay * cfg.backoff_factor ^ (attempt - 1)) cfg.max_delay
          installLoop cfg outcomes fuel (attempt + 1) (delays ++ [delay]) last_error

/-- `EnvironmentService._install_dependencies_streaming`, retry portion:
the environment exists and the parsed package list is nonempty, so control
reaches the retry loop starting at attempt 1. -/
def install_dependencies_streaming (cfg : RetryConfig)
    (outcomes : Nat → AttemptOutcome) : InstallResult :=
  installLoop cfg outcomes cfg.max_attempts 1 [] ""

/-- Claim C7: `cleanup_stale_executions` turns exactly the rows persisted as
`running` into `failed` rows carrying the message "Execution interrupted by
service restart" and a finish time, leaves every other row unchanged
position by position, and running it a second time immediately afterwards
changes nothing. -/
theorem c7_cleanup_stale_executions (now now2 : Nat) (execs : List Execution) :
    (∀ i : Nat, (cleanup_stale_executions now execs)[i]? =
      (execs[i]?).map (fun e =>
        if e.status = ExecutionStatus.running then
          { e with
              status := ExecutionStatus.failed
              finished_at := some now
              error_message := some "Execution interrupted by service restart" }
        else e))
    ∧ cleanup_stale_executions now2 (cleanup_stale_executions now execs) =
        cleanup_stale_executions now execs := by
  constructor
  · intro i
    simp [cleanup_stale_executions]
  · induction execs with
    | nil => rfl
    | cons e t ih =>
        simp only [cleanup_stale_executions, List.map_cons, List.map_map] at ih ⊢
        by_cases h : e.status = ExecutionStatus.running <;>
          simp [h, ih]

/-- Claim C2: when the persisted status is already `cancelled`,
`_finish_execution` keeps the status `cancelled`, backfills exit code,
stdout, stderr and finish time only where they are still missing, leaves
every other column untouched, and creates no artifact rows. -/
theorem c2_finish_preserves_cancelled (now : Nat) (disk : List String)
    (e : Execution) (status : ExecutionStatus) (exit_code : Option Int)
    (stdout stderr : String) (error_message : Option String)
    (start_time : Option Nat) (am : List ArtifactInfo)
    (h : e.status = ExecutionStatus.cancelled) :
    (finish_execution now disk e status exit_code stdout stderr error_message
        start_time am).1.status = ExecutionStatus.cancelled
    ∧ (∀ c, e.exit_code = some c →
        (finish_execution now disk e status exit_code stdout stderr error_message
          start_time am).1.exit_code = some c)
    ∧ (e.exit_code = none →
        (finish_execution now disk e status exit_code stdout stderr error_message
          start_time am).1.exit_code = exit_code)
    ∧ (e.stdout ≠ "" →
        (finish_execution now disk e status exit_code stdout stderr error_message
          start_time am).1.stdout = e.stdout)
    ∧ (e.stdout = "" →
        (finish_execution now disk e status exit_code stdout stderr error_message
          start_time am).1.stdout = stdout)
    ∧ (e.stderr ≠ "" →
        (finish_execution now disk e status exit_code stdout stderr error_message
          start_time am).1.stderr = e.stderr)
    ∧ (e.stderr = "" →
        (finish_execution now disk e status exit_code stdout stderr error_message
          start_time am).1.stderr = stderr)
    ∧ (∀ t, e.finished_at = some t →
        (finish_execution now disk e status exit_code stdout stderr error_message
          start_time am).1.finished_at = some t)
    ∧ (e.finished_at = none →
        (finish_execution now disk e status exit_code stdout stderr error_message
          start_time am).1.finished_at = some now)
    ∧ (finish_execution now disk e status exit_code stdout stderr error_message
        start_time am).1.error_message = e.error_message
    ∧ (finish_execution now disk e status exit_code stdout stderr error_message
        start_time am).1.duration_ms = e.duration_ms
    ∧ (finish_execution now disk e status exit_code stdout stderr error_message
        start_time am).1.artifacts_count = e.artifacts_count
    ∧ (finish_execution now disk e status exit_code stdout stderr error_message
        start_time am).1.artifacts_size_bytes = e.artifacts_size_bytes
    ∧ (finish_execution now disk e status exit_code stdout stderr error_message
        start_time am).1.id = e.id
    ∧ (finish_execution now disk e status exit_code stdout stderr error_message
        start_time am).1.script_id = e.script_id
    ∧ (finish_execution now disk e status exit_code stdout stderr error_message
        start_time am).2 = [] := by
  refine ⟨by simp [finish_execution, h], ?_, ?_, ?_, ?_, ?_, ?_, ?_, ?_,
    by simp [finish_execution, h], by simp [finish_execution, h],
    by simp [finish_execution, h], by simp [finish_execution, h],
    by simp [finish_execution, h], by simp [finish_execution, h],
    by simp [finish_execution, h]⟩
  · intro c hc; simp [finish_execution, h, hc]
  · intro hc
    rcases hec : exit_code with _ | c <;> simp [finish_execution, h, hc, hec]
  · intro hs; simp [finish_execution, h, hs]
  · intro hs
    by_cases h2 : stdout = "" <;> simp [finish_execution, h, hs, h2]
  · intro hs; simp [finish_execution, h, hs]
  · intro hs
    by_cases h2 : stderr = "" <;> simp [finish_execution, h, hs, h2]
  · intro t ht; simp [finish_execution, h, ht]
  · intro ht; simp [finish_execution, h, ht]

/-- Witness for C2: on a concrete already-cancelled row with missing exit
code, empty output and no finish time, the natural-completion finalize
leaves the status `cancelled` and backfills the missing fields. -/
theorem c2_finish_preserves_cancelled_witness :
    let e0 : Execution :=
      { id := 9, script_id := 2, status := ExecutionStatus.cancelled
        triggered_by := "manual", is_test := false, started_at := 10
        finished_at := none, duration_ms := none, exit_code := none
        stdout := "", stderr := "", error_message := some "Cancelled by user"
        artifacts_count := 0, artifacts_size_bytes := 0 }
    e0.status = ExecutionStatus.cancelled
    ∧ (finish_execution 20 [] e0 ExecutionStatus.success (some 0) "out" "err"
        none (some 10) []).1.status = ExecutionStatus.cancelled :=
  ⟨rfl, (c2_finish_preserves_cancelled 20 [] _ ExecutionStatus.success (some 0)
      "out" "err" none (some 10) [] rfl).1⟩

/-- Claim C1: `execute_script` rejects with the "already running" outcome
exactly when the script id is already in the running set, creating no
execution record and changing no state in that case; when the id is not in
the set it is marked running and (when the script row exists) the call
succeeds with a fresh `running` execution record; a script id not in the
running set is never rejected, whatever other ids are in the set; and
immediately repeating the call for the same id after a successful admission
is rejected. -/
theorem c1_single_running_per_script (st : ExecutorState) (script_id : Nat)
    (script_exists : Bool) (tb : String) (tst : Bool) (now : Nat)
    (script_exists2 : Bool) (tb2 : String) (tst2 : Bool) (now2 : Nat) :
    (script_id ∈ st.running_scripts →
      execute_script st script_id script_exists tb tst now =
        (ExecuteResult.alreadyRunning script_id, st))
    ∧ (script_id ∉ st.running_scripts →
        (execute_script st script_id script_exists tb tst now).2.running_scripts =
          script_id :: st.running_scripts
        ∧ (∀ s, (execute_script st script_id script_exists tb tst now).1 ≠
            ExecuteResult.alreadyRunning s)
        ∧ (script_exists = true →
            (execute_script st script_id script_exists tb tst now).1 =
              ExecuteResult.ok st.next_execution_id
            ∧ (execute_script st script_id script_exists tb tst now).2.executions =
                st.executions ++
                  [{ id := st.next_execution_id
                     script_id := script_id
                     status := ExecutionStatus.running
                     triggered_by := tb
                     is_test := tst
                     started_at := now
                     finished_at := none
                     duration_ms := none
                     exit_code := none
                     stdout := ""
                     stderr := ""
                     error_message := none
                     artifacts_count := 0
                     artifacts_size_bytes := 0 }])
        ∧ (execute_script (execute_script st script_id script_exists tb tst now).2
            script_id script_exists2 tb2 tst2 now2).1 =
              ExecuteResult.alreadyRunning script_id) := by
  constructor
  · intro hmem
    simp [execute_script, hmem]
  · intro hmem
    refine ⟨?_, ?_, ?_, ?_⟩
    · cases script_exists <;> simp [execute_script, hmem]
    · intro s
      cases script_exists <;> simp [execute_script, hmem]
    · intro hse
      subst hse
      simp [execute_script, hmem]
    · have hrs : (execute_script st script_id script_exists tb tst now).2.running_scripts =
          script_id :: st.running_scripts := by
        cases script_exists <;> simp [execute_script, hmem]
      have hrej : ∀ st2 : ExecutorState, script_id ∈ st2.running_scripts →
          (execute_script st2 script_id script_exists2 tb2 tst2 now2).1 =
            ExecuteResult.alreadyRunning script_id := by
        intro st2 h2
        simp [execute_script, h2]
      exact hrej _ (by rw [hrs]; exact List.mem_cons_self _ _)

/-- Witness for C1: a concrete fresh state admits script 5 and creates its
record; a state already running script 5 rejects it without touching state. -/
theorem c1_single_running_per_script_witness :
    let st0 : ExecutorState :=
      { running_scripts := [], running_processes := [], executions := [],
        next_execution_id := 1 }
    let stBusy : ExecutorState :=
      { running_scripts := [5], running_processes := [], executions := [],
        next_execution_id := 1 }
    (execute_script stBusy 5 true "manual" false 0 =
      (ExecuteResult.alreadyRunning 5, stBusy))
    ∧ (execute_script st0 5 true "manual" false 0).1 = ExecuteResult.ok 1
    ∧ (execute_script (execute_script st0 5 true "manual" false 0).2
        5 true "manual" false 3).1 = ExecuteResult.alreadyRunning 5 :=
  ⟨(c1_single_running_per_script _ 5 true "manual" false 0 true "manual" false 0).1
      (by decide),
   ((c1_single_running_per_script _ 5 true "manual" false 0 true "manual" false 0).2
      (by decide)).2.2.1 rfl |>.1,
   ((c1_single_running_per_script _ 5 true "manual" false 0 true "manual" false 3).2
      (by decide)).2.2.2⟩

/-- Claim C4 failing input: calling `execute_script` for a script id whose
row is missing from the database marks the script running, then raises
"not found" without ever removing the marker — `is_script_running` stays
`true`, contradicting the always-release guarantee. -/
theorem c4_running_marker_leak_on_missing_script :
    let st0 : ExecutorState :=
      { running_scripts := [], running_processes := [], executions := [],
        next_execution_id := 1 }
    (execute_script st0 7 false "manual" false 0).1 = ExecuteResult.scriptNotFound 7
    ∧ is_script_running (execute_script st0 7 false "manual" false 0).2 7 = true := by
  constructor <;> rfl

/-- Claim C3 failing input: with a 1-second timeout and a process that keeps
its output streams open until it exits at 5 seconds with code 0, the
`gather` over both stream readers blocks unbounded until EOF, after which
`wait_for(process.wait(), 1)` returns immediately — the run finalizes as
`success`, the process is never killed, and no timeout error is recorded. -/
theorem c3_timeout_bypassed_by_stream_drain :
    let e0 : Execution :=
      { id := 1, script_id := 1, status := ExecutionStatus.running
        triggered_by := "manual", is_test := false, started_at := 0
        finished_at := none, duration_ms := none, exit_code := none
        stdout := "", stderr := "", error_message := none
        artifacts_count := 0, artifacts_size_bytes := 0 }
    let r := run_script_wait 100000 1 5 []
      { streams_close_at := 5, exits_at := 5, exit_code := 0 } e0 [] [] [] 0
    r.1.status = ExecutionStatus.success
    ∧ r.2.2 = false
    ∧ r.1.error_message = none
    ∧ r.1.exit_code = some 0 := by
  refine ⟨rfl, rfl, rfl, rfl⟩

/-- Looking up an id after an id-preserving update returns the updated row. -/
theorem findExecution_updateExecution (execs : List Execution) (eid : Nat)
    (f : Execution → Execution) (hf : ∀ e, (f e).id = e.id) :
    findExecution (updateExecution execs eid f) eid =
      (findExecution execs eid).map f := by
  induction execs with
  | nil => rfl
  | cons a t ih =>
      by_cases h : a.id = eid
      · simp [findExecution, updateExecution, List.find?_cons, h, hf]
      · simp only [findExecution, updateExecution, List.map_cons] at ih ⊢
        simp [List.find?_cons, h, ih]

/-- Claim C6: `cancel_execution` reports success only for an execution that
is presently `running` (with a live process handle), in which case the row
is persisted as `cancelled` with the message "Cancelled by user" and a
finish time; a missing or non-running execution leaves every row untouched
and yields `false`; and repeating the call right after a successful cancel
yields `false`. -/
theorem c6_cancel_execution (st : ExecutorState) (eid now now2 : Nat) :
    ((cancel_execution st eid now).1 = true →
      ∃ e, findExecution st.executions eid = some e
        ∧ e.status = ExecutionStatus.running ∧ eid ∈ st.running_processes)
    ∧ (findExecution st.executions eid = none →
        (cancel_execution st eid now).1 = false
        ∧ (cancel_execution st eid now).2.executions = st.executions)
    ∧ (∀ e, findExecution st.executions eid = some e →
        e.status ≠ ExecutionStatus.running →
        (cancel_execution st eid now).1 = false
        ∧ (cancel_execution st eid now).2.executions = st.executions)
    ∧ (∀ e, findExecution st.executions eid = some e →
        e.status = ExecutionStatus.running → eid ∈ st.running_processes →
        (cancel_execution st eid now).1 = true
        ∧ findExecution (cancel_execution st eid now).2.executions eid =
            some { e with
                     status := ExecutionStatus.cancelled
                     finished_at := some now
                     error_message := some "Cancelled by user" }
        ∧ (cancel_execution (cancel_execution st eid now).2 eid now2).1 = false) := by
  refine ⟨?_, ?_, ?_, ?_⟩
  · intro htrue
    rcases hfind : findExecution st.executions eid with _ | e
    · simp [cancel_execution, hfind] at htrue
    · by_cases hst : e.status = ExecutionStatus.running
      · by_cases hproc : eid ∈ st.running_processes
        · exact ⟨e, rfl, hst, hproc⟩
        · simp [cancel_execution, hfind, hst, hproc] at htrue
      · simp [cancel_execution, hfind, hst] at htrue
  · intro hfind
    simp [cancel_execution, hfind]
  · intro e hfind hst
    simp [cancel_execution, hfind, hst]
  · intro e hfind hst hproc
    have hupd : findExecution
        (updateExecution st.executions eid fun x =>
          { x with
              status := ExecutionStatus.cancelled
              finished_at := some now
              error_message := some "Cancelled by user" }) eid =
        some { e with
                 status := ExecutionStatus.cancelled
                 finished_at := some now
                 error_message := some "Cancelled by user" } := by
      rw [findExecution_updateExecution st.executions eid
        (fun x =>
          { x with
              status := ExecutionStatus.cancelled
              finished_at := some now
              error_message := some "Cancelled by user" })
        (fun _ => rfl), hfind]
      rfl
    refine ⟨?_, ?_, ?_⟩
    · simp [cancel_execution, hfind, hst, hproc]
    · simp only [cancel_execution, hfind, hst, hproc]
      simp [hupd, hst]
    · have hexec2 : findExecution (cancel_execution st eid now).2.executions eid =
          some { e with
                   status := ExecutionStatus.cancelled
                   finished_at := some now
                   error_message := some "Cancelled by user" } := by
        simp only [cancel_execution, hfind, hst, hproc]
        simp [hupd, hst]
      have hrej : ∀ st2 : ExecutorState,
          findExecution st2.executions eid =
            some { e with
                     status := ExecutionStatus.cancelled
                     finished_at := some now
                     error_message := some "Cancelled by user" } →
          (cancel_execution st2 eid now2).1 = false := by
        intro st2 h2
        simp [cancel_execution, h2]
      exact hrej _ hexec2

/-- Witness for C6: in a concrete state holding one running execution with a
live process, cancel succeeds and persists the cancelled row; cancelling a
missing id, a finished execution, or repeating the cancel all return false. -/
theorem c6_cancel_execution_witness :
    let e1 : Execution :=
      { id := 4, script_id := 2, status := ExecutionStatus.running
        triggered_by := "manual", is_test := false, started_at := 0
        finished_at := none, duration_ms := none, exit_code := none
        stdout := "", stderr := "", error_message := none
        artifacts_count := 0, artifacts_size_bytes := 0 }
    let st1 : ExecutorState :=
      { running_scripts := [2], running_processes := [4], executions := [e1],
        next_execution_id := 5 }
    (cancel_execution st1 4 7).1 = true
    ∧ findExecution (cancel_execution st1 4 7).2.executions 4 =
        some { e1 with
                 status := ExecutionStatus.cancelled
                 finished_at := some 7
                 error_message := some "Cancelled by user" }
    ∧ (cancel_execution (cancel_execution st1 4 7).2 4 9).1 = false
    ∧ (cancel_execution st1 99 7).1 = false := by
  intro e1 st1
  have hfind : findExecution st1.executions 4 = some e1 := by rfl
  have hmain := (c6_cancel_execution st1 4 7 9).2.2.2 e1 hfind rfl (by decide)
  have hnone := (c6_cancel_execution st1 99 7 9).2.1 (by rfl)
  exact ⟨hmain.1, hmain.2.1, hmain.2.2, hnone.1⟩

/-- Claim C8: on the natural finalize path (status not already cancelled),
the artifact rows created are exactly the metadata entries whose file is
present in the execution's artifacts directory — entries with a missing
file produce no row — and artifact processing never changes the status the
finalize was called with; moreover the stdout marker line
`ARTIFACT_SAVED:out_123.txt:42:out.txt` parses to exactly one metadata
entry, whatever the JSON-envelope oracle does. -/
theorem c8_artifact_records (jm : String → Option String) (now : Nat)
    (disk : List String) (e : Execution) (status : ExecutionStatus)
    (exit_code : Option Int) (stdout stderr : String)
    (error_message : Option String) (start_time : Option Nat)
    (lines : List String) (h : e.status ≠ ExecutionStatus.cancelled) :
    ((finish_execution now disk e status exit_code stdout stderr error_message
        start_time (collectArtifactsMetadata jm lines)).2 =
      ((collectArtifactsMetadata jm lines).filter
        (fun a => decide (a.filename ∈ disk))).map (mkArtifact e.id now))
    ∧ (finish_execution now disk e status exit_code stdout stderr error_message
        start_time (collectArtifactsMetadata jm lines)).1.status = status
    ∧ (collectArtifactsMetadata jm lines ≠ [] →
        (finish_execution now disk e status exit_code stdout stderr error_message
          start_time (collectArtifactsMetadata jm lines)).1.artifacts_count =
        ((collectArtifactsMetadata jm lines).filter
          (fun a => decide (a.filename ∈ disk))).length)
    ∧ (∀ jm2, collectArtifactsMetadata jm2 ["ARTIFACT_SAVED:out_123.txt:42:out.txt\n"] =
        [{ filename := "out_123.txt", size_bytes := 42,
           original_filename := "out.txt" }]) := by
  refine ⟨?_, ?_, ?_, ?_⟩
  · by_cases ham : collectArtifactsMetadata jm lines = [] <;>
      simp [finish_execution, h, ham]
  · by_cases ham : collectArtifactsMetadata jm lines = [] <;>
      simp [finish_execution, h, ham]
  · intro ham
    simp [finish_execution, h, ham]
  · intro jm2
    rfl

/-- Witness for C8: a concrete running execution finalizing as success with
the scenario marker line yields exactly one artifact row when the 42-byte
file is on disk, and zero rows when it is absent. -/
theorem c8_artifact_records_witness :
    let e0 : Execution :=
      { id := 3, script_id := 1, status := ExecutionStatus.running
        triggered_by := "manual", is_test := false, started_at := 0
        finished_at := none, duration_ms := none, exit_code := none
        stdout := "", stderr := "", error_message := none
        artifacts_count := 0, artifacts_size_bytes := 0 }
    let lines := ["ARTIFACT_SAVED:out_123.txt:42:out.txt\n"]
    (finish_execution 9 ["out_123.txt"] e0 ExecutionStatus.success (some 0) "" ""
        none (some 0) (collectArtifactsMetadata (fun _ => none) lines)).2 =
      [{ execution_id := 3, filename := "out_123.txt",
         original_filename := "out.txt", size_bytes := 42, created_at := 9 }]
    ∧ (finish_execution 9 [] e0 ExecutionStatus.success (some 0) "" ""
        none (some 0) (collectArtifactsMetadata (fun _ => none) lines)).2 = []
    ∧ (finish_execution 9 [] e0 ExecutionStatus.success (some 0) "" ""
        none (some 0) (collectArtifactsMetadata (fun _ => none) lines)).1.status =
      ExecutionStatus.success := by
  refine ⟨?_, ?_, ?_⟩
  · rw [(c8_artifact_records (fun _ => none) 9 ["out_123.txt"] _
      ExecutionStatus.success (some 0) "" "" none (some 0)
      ["ARTIFACT_SAVED:out_123.txt:42:out.txt\n"] (by decide)).1]
    rfl
  · rw [(c8_artifact_records (fun _ => none) 9 [] _
      ExecutionStatus.success (some 0) "" "" none (some 0)
      ["ARTIFACT_SAVED:out_123.txt:42:out.txt\n"] (by decide)).1]
    rfl
  · exact (c8_artifact_records (fun _ => none) 9 [] _
      ExecutionStatus.success (some 0) "" "" none (some 0)
      ["ARTIFACT_SAVED:out_123.txt:42:out.txt\n"] (by decide)).2.1

/-- A cron expression that does not split into exactly five fields yields no
trigger, whatever the `CronTrigger` constructor would do. -/
theorem parse_cron_none_of_not_five {T : Type}
    (mkTrigger : String → String → String → String → String → Option T)
    (expr : String) (h : (pySplitWs (pyStrip expr)).length ≠ 5) :
    parse_cron mkTrigger expr = none := by
  unfold parse_cron
  rcases hl : pySplitWs (pyStrip expr) with _ | ⟨a, _ | ⟨b, _ | ⟨c, _ | ⟨d,
    _ | ⟨f, _ | ⟨g, t⟩⟩⟩⟩⟩⟩ <;> simp_all

/-- Appending a job with the key after filtering the key out leaves exactly
that job under the key. -/
theorem filter_key_append {T : Type} (jobs : List (Job T)) (jid : String)
    (j : Job T) (hj : j.id = jid) :
    ((jobs.filter (fun x => x.id ≠ jid)) ++ [j]).filter (fun x => x.id = jid) =
      [j] := by
  induction jobs with
  | nil => simp [hj]
  | cons a t ih =>
      by_cases h : a.id = jid <;> simp [h, ih, hj]

/-- Claim C9: `add_job` returns `false` (and never raises) for a disabled
script or an expression that fails 5-field validation or trigger
conversion; for an enabled script with a convertible 5-field expression it
replaces the job keyed by the script id, carrying the script's misfire
grace time, and returns `true`. -/
theorem c9_add_job {T : Type}
    (mkTrigger : String → String → String → String → String → Option T)
    (jobs : List (Job T)) (script : Script) :
    (script.enabled = false → add_job mkTrigger jobs script = (false, jobs))
    ∧ ((pySplitWs (pyStrip script.cron_expression)).length ≠ 5 →
        (add_job mkTrigger jobs script).1 = false)
    ∧ (parse_cron mkTrigger script.cron_expression = none →
        (add_job mkTrigger jobs script).1 = false)
    ∧ (∀ tr, script.enabled = true →
        parse_cron mkTrigger script.cron_expression = some tr →
        add_job mkTrigger jobs script =
          (true,
            jobs.filter (fun j => j.id ≠ "script_" ++ toString script.id) ++
              [{ id := "script_" ++ toString script.id
                 name := script.name
                 script_id := script.id
                 trigger := tr
                 misfire_grace_time := script.misfire_grace_time }])
        ∧ (add_job mkTrigger jobs script).2.filter
            (fun j => j.id = "script_" ++ toString script.id) =
          [{ id := "script_" ++ toString script.id
             name := script.name
             script_id := script.id
             trigger := tr
             misfire_grace_time := script.misfire_grace_time }]) := by
  refine ⟨?_, ?_, ?_, ?_⟩
  · intro hdis
    simp [add_job, hdis]
  · intro hlen
    have hp := parse_cron_none_of_not_five mkTrigger script.cron_expression hlen
    by_cases hen : script.enabled <;> simp [add_job, hen, hp]
  · intro hp
    by_cases hen : script.enabled <;> simp [add_job, hen, hp]
  · intro tr hen hp
    constructor
    · simp [add_job, hen, hp]
    · rw [show (add_job mkTrigger jobs script).2 =
          jobs.filter (fun j => j.id ≠ "script_" ++ toString script.id) ++
            [{ id := "script_" ++ toString script.id
               name := script.name
               script_id := script.id
               trigger := tr
               misfire_grace_time := script.misfire_grace_time }] from by
        simp [add_job, hen, hp]]
      exact filter_key_append jobs _ _ rfl

/-- Witness for C9: a disabled script is rejected; a 3-field expression is
rejected; an enabled script with `*/5 * * * *` gets exactly one job under
its key with its misfire grace time. -/
theorem c9_add_job_witness :
    let mk0 : String → String → String → String → String →
        Option (String × String × String × String × String) :=
      fun a b c d f => some (a, b, c, d, f)
    let good : Script :=
      { id := 3, name := "s3", enabled := true,
        cron_expression := "*/5 * * * *", misfire_grace_time := 60 }
    let bad : Script :=
      { id := 4, name := "s4", enabled := true,
        cron_expression := "* * *", misfire_grace_time := 60 }
    let off : Script :=
      { id := 5, name := "s5", enabled := false,
        cron_expression := "*/5 * * * *", misfire_grace_time := 60 }
    (add_job mk0 [] off = (false, []))
    ∧ (add_job mk0 [] bad).1 = false
    ∧ add_job mk0 [] good =
        (true,
          [{ id := "script_3", name := "s3", script_id := 3,
             trigger := ("*/5", "*", "*", "*", "*"), misfire_grace_time := 60 }]) := by
  intro mk0 good bad off
  refine ⟨(c9_add_job mk0 [] off).1 rfl, (c9_add_job mk0 [] bad).2.1 (by decide), ?_⟩
  have h := ((c9_add_job mk0 [] good).2.2.2 ("*/5", "*", "*", "*", "*") rfl rfl).1
  simpa using h

/-- Claim C5 counterexample: an install failure whose diagnostic matches
neither the transient nor the permanent pattern list is given up after a
single attempt — the retry budget of 3 is not exhausted, contrary to the
claim (`if not is_retryable or attempt == max_attempts` returns on the
first attempt for any non-transient diagnostic). -/
theorem c5_unmatched_failure_single_attempt :
    let outcomes : Nat → AttemptOutcome :=
      fun _ => { returncode := 1, output := "disk quota exceeded" }
    isRetryableOutput (pyLower "disk quota exceeded") = false
    ∧ isNonRetryableOutput (pyLower "disk quota exceeded") = false
    ∧ retry_config.max_attempts = 3
    ∧ (install_dependencies_streaming retry_config outcomes).attempts_made = 1
    ∧ (install_dependencies_streaming retry_config outcomes).attempts_made ≠
        retry_config.max_attempts
    ∧ (install_dependencies_streaming retry_config outcomes).ok = false := by
  refine ⟨rfl, rfl, rfl, rfl, by decide, rfl⟩

/-- Claim C5 (amended): with every attempt failing on a transient-classified
diagnostic (matches the network list, not the permanent list), exactly the
configured 3 attempts are made with strictly increasing delays 2 s and 4 s,
each bounded by the 30 s maximum; a first failure classified permanent
makes exactly one attempt; and a first failure matching neither list also
makes exactly one attempt (it is not retried). -/
theorem c5_install_retry_policy (outcomes : Nat → AttemptOutcome) :
    ((∀ a, 1 ≤ a → a ≤ 3 →
        (outcomes a).returncode ≠ 0 ∧
        isRetryableOutput (pyLower (outcomes a).output) = true ∧
        isNonRetryableOutput (pyLower (outcomes a).output) = false) →
      (install_dependencies_streaming retry_config outcomes).ok = false
      ∧ (install_dependencies_streaming retry_config outcomes).attempts_made = 3
      ∧ (install_dependencies_streaming retry_config outcomes).delays = [2, 4]
      ∧ List.Chain' (fun d1 d2 => d1 < d2)
          (install_dependencies_streaming retry_config outcomes).delays
      ∧ (∀ d ∈ (install_dependencies_streaming retry_config outcomes).delays,
          d ≤ retry_config.max_delay))
    ∧ ((outcomes 1).returncode ≠ 0 →
        isNonRetryableOutput (pyLower (outcomes 1).output) = true →
        (install_dependencies_streaming retry_config outcomes).ok = false
        ∧ (install_dependencies_streaming retry_config outcomes).attempts_made = 1
        ∧ (install_dependencies_streaming retry_config outcomes).delays = [])
    ∧ ((outcomes 1).returncode ≠ 0 →
        isRetryableOutput (pyLower (outcomes 1).output) = false →
        isNonRetryableOutput (pyLower (outcomes 1).output) = false →
        (install_dependencies_streaming retry_config outcomes).ok = false
        ∧ (install_dependencies_streaming retry_config outcomes).attempts_made = 1
        ∧ (install_dependencies_streaming retry_config outcomes).delays = []) := by
  refine ⟨?_, ?_, ?_⟩
  · intro h
    have e1 := h 1 (by norm_num) (by norm_num)
    have e2 := h 2 (by norm_num) (by norm_num)
    have e3 := h 3 (by norm_num) (by norm_num)
    have hres : install_dependencies_streaming retry_config outcomes =
        { ok := false
          msg := "pip install failed with code " ++ toString (outcomes 3).returncode
          attempts_made := 3
          delays := [2, 4] } := by
      norm_num [install_dependencies_streaming, retry_config, installLoop,
        e1.1, e1.2.1, e1.2.2, e2.1, e2.2.1, e2.2.2, e3.1, e3.2.1, e3.2.2]
    rw [hres]
    refine ⟨rfl, rfl, rfl, by norm_num, by norm_num [retry_config]⟩
  · intro h1 hperm
    have hres : install_dependencies_streaming retry_config outcomes =
        { ok := false
          msg := "pip install failed with code " ++ toString (outcomes 1).returncode
          attempts_made := 1
          delays := [] } := by
      norm_num [install_dependencies_streaming, retry_config, installLoop, h1, hperm]
    rw [hres]
    exact ⟨rfl, rfl, rfl⟩
  · intro h1 hretry hperm
    have hres : install_dependencies_streaming retry_config outcomes =
        { ok := false
          msg := "pip install failed with code " ++ toString (outcomes 1).returncode
          attempts_made := 1
          delays := [] } := by
      norm_num [install_dependencies_streaming, retry_config, installLoop,
        h1, hretry, hperm]
    rw [hres]
    exact ⟨rfl, rfl, rfl⟩

/-- Witness for C5: with a constant transient failure ("ssl error") exactly
3 attempts and delays [2, 4]; with a permanent failure ("No solution
found") exactly one attempt. -/
theorem c5_install_retry_policy_witness :
    let transient : Nat → AttemptOutcome :=
      fun _ => { returncode := 1, output := "SSL error: handshake failed" }
    let permanent : Nat → AttemptOutcome :=
      fun _ => { returncode := 2, output := "No solution found for requirement" }
    (install_dependencies_streaming retry_config transient).attempts_made = 3
    ∧ (install_dependencies_streaming retry_config transient).delays = [2, 4]
    ∧ (install_dependencies_streaming retry_config permanent).attempts_made = 1 := by
  intro transient permanent
  have harg : ∀ a, 1 ≤ a → a ≤ 3 →
      (transient a).returncode ≠ 0 ∧
      isRetryableOutput (pyLower (transient a).output) = true ∧
      isNonRetryableOutput (pyLower (transient a).output) = false := by
    intro a _ _
    refine ⟨?_, rfl, rfl⟩
    show ¬((1 : Int) = 0)
    decide
  have ht := (c5_install_retry_policy transient).1 harg
  have hp := (c5_install_retry_policy permanent).2.1
    (show ¬((2 : Int) = 0) by decide) (by rfl)
  exact ⟨ht.2.1, ht.2.2.1, hp.2.1⟩

/-- Claim C10 counterexample: a dependency list consisting only of a
comment does not behave like an empty list in `install_dependencies` — with
no environment on disk the empty list succeeds ("No dependencies to
install") while the comment-only list fails ("Environment does not exist"),
because only the truly empty text bypasses the environment-existence
check. -/
theorem c10_comment_only_not_like_empty :
    let uv0 : List String → Int × String × String := fun _ => (0, "", "")
    parsePackages "# tools only" = []
    ∧ install_dependencies false uv0 "# tools only" = (false, "Environment does not exist")
    ∧ install_dependencies false uv0 "" = (true, "No dependencies to install")
    ∧ (install_dependencies false uv0 "# tools only").1 ≠
        (install_dependencies false uv0 "").1 := by
  refine ⟨rfl, rfl, rfl, by decide⟩

/-- Claim C10 (amended): empty or whitespace-only dependency text makes
`validate_dependencies` return valid with no packages and
`install_dependencies` succeed, in both cases independently of the external
tool and of environment existence; blank and `#` comment lines are skipped
by the shared parser, so a comment-only list validates exactly like an
empty one, while in `install_dependencies` it is accepted (with the
distinct message "No valid packages to install") only after the
environment-existence check, failing when no environment exists. -/
theorem c10_blank_and_comment_handling (uvCompile : List String → UvRun)
    (uvInstall : List String → Int × String × String) (dependencies : String) :
    (pyStrip dependencies = "" →
      validate_dependencies uvCompile dependencies = (true, "", [])
      ∧ ∀ env_exists : Bool,
          install_dependencies env_exists uvInstall dependencies =
            (true, "No dependencies to install"))
    ∧ (parsePackages dependencies = [] →
        validate_dependencies uvCompile dependencies = (true, "", []))
    ∧ (pyStrip dependencies ≠ "" → parsePackages dependencies = [] →
        install_dependencies true uvInstall dependencies =
          (true, "No valid packages to install")
        ∧ install_dependencies false uvInstall dependencies =
          (false, "Environment does not exist")) := by
  refine ⟨?_, ?_, ?_⟩
  · intro h
    exact ⟨by simp [validate_dependencies, h],
      fun env_exists => by simp [install_dependencies, h]⟩
  · intro hp
    by_cases h : pyStrip dependencies = ""
    · simp [validate_dependencies, h]
    · simp [validate_dependencies, validate_dependencies_impl, h, hp]
  · intro h hp
    constructor
    · simp [install_dependencies, h, hp]
    · simp [install_dependencies, h]

/-- Witness for C10: whitespace-only text validates and installs as empty;
a comment-only list validates as empty and, with an existing environment,
installs with the "No valid packages" message. -/
theorem c10_blank_and_comment_handling_witness :
    let uvC : List String → UvRun := fun _ => UvRun.timesOut
    let uvI : List String → Int × String × String := fun _ => (0, "", "")
    validate_dependencies uvC "  \n " = (true, "", [])
    ∧ install_dependencies false uvI "  \n " = (true, "No dependencies to install")
    ∧ validate_dependencies uvC "# c1\n\n# c2" = (true, "", [])
    ∧ install_dependencies true uvI "# c1\n\n# c2" =
        (true, "No valid packages to install") := by
  intro uvC uvI
  have h1 := (c10_blank_and_comment_handling uvC uvI "  \n ").1 (by rfl)
  have h2 := (c10_blank_and_comment_handling uvC uvI "# c1\n\n# c2").2.1 (by rfl)
  have h3 := (c10_blank_and_comment_handling uvC uvI "# c1\n\n# c2").2.2
    (by decide) (by rfl)
  exact ⟨h1.1, h1.2 false, h2, h3.1⟩

end Cronator
